import Mathlib

/-!
Shallow embedding of `src/integrations/expressApollo.ts` (apollographql
graphql-server express integration): the `graphqlHTTP` request-handler
factory and the `renderGraphiQL` explorer middleware.

JavaScript runtime values are modelled by the inductive `Js`; external
collaborators (the `runQuery` executor and the library default error
formatter `graphql.formatError`) are opaque and supplied through an `Env`
record.  The `JSON.parse` / `JSON.stringify` builtins are modelled by
executable functions on `Js` covering the JSON fragment this adapter
exercises (null, booleans, integers, strings, arrays, objects).
-/

/-- Model of a JavaScript runtime value (the JSON-representable fragment
plus `undefined`). -/
inductive Js where
  | undefined : Js
  | null : Js
  | bool (b : Bool) : Js
  | num (n : Int) : Js
  | str (s : String) : Js
  | arr (elems : List Js) : Js
  | obj (fields : List (String × Js)) : Js

/-- Is this value `undefined`? (the `typeof x === "undefined"` test). -/
def Js.isUndefined : Js → Bool
  | .undefined => true
  | _ => false

/-- JavaScript truthiness of a `Js` value (objects and arrays are always
truthy; `0`, the empty string, `null`, `undefined` and `false` are falsy). -/
def Js.truthy : Js → Bool
  | .undefined => false
  | .null => false
  | .bool b => b
  | .num n => n != 0
  | .str s => s != ""
  | .arr _ => true
  | .obj _ => true

/-- Property access `o.name` on a value that is neither `null` nor
`undefined`: object lookup, `undefined` for a missing field or a
non-object receiver. -/
def Js.getProp : Js → String → Js
  | .obj fields, name =>
      match fields.find? (fun p => p.1 == name) with
      | some p => p.2
      | none => .undefined
  | _, _ => .undefined

/-- Property access `o.name` as it behaves in JavaScript: accessing a
property of `null` or `undefined` throws a `TypeError`; the thrown value
is returned in the `error` branch. -/
def Js.getE (o : Js) (name : String) : Except Js Js :=
  match o with
  | .undefined => .error (.str ("TypeError: Cannot read property " ++ name ++ " of undefined"))
  | .null => .error (.str ("TypeError: Cannot read property " ++ name ++ " of null"))
  | o => .ok (o.getProp name)

/-- JavaScript `a || b`. -/
def jsOr (a b : Js) : Js := if a.truthy then a else b

/-- Escape one character for a JSON string literal. -/
def escapeChar (c : Char) : String :=
  if c = '"' then "\\\""
  else if c = '\\' then "\\\\"
  else if c = '\n' then "\\n"
  else if c = '\t' then "\\t"
  else if c = '\r' then "\\r"
  else String.singleton c

/-- Escape a string for inclusion in a JSON string literal. -/
def escapeString (s : String) : String :=
  String.join (s.data.map escapeChar)

mutual

/-- Model of `JSON.stringify` on `Js` values (fields holding `undefined`
are skipped, as `JSON.stringify` does). -/
def Js.stringify : Js → String
  | .undefined => "null"
  | .null => "null"
  | .bool true => "true"
  | .bool false => "false"
  | .num n => toString n
  | .str s => "\"" ++ escapeString s ++ "\""
  | .arr xs => "[" ++ stringifyElems xs ++ "]"
  | .obj fs => "\x7b" ++ stringifyFields fs ++ "\x7d"

/-- Comma-separated rendering of JSON array elements. -/
def stringifyElems : List Js → String
  | [] => ""
  | [x] => Js.stringify x
  | x :: y :: xs => Js.stringify x ++ "," ++ stringifyElems (y :: xs)

/-- Comma-separated rendering of JSON object fields, skipping fields whose
value is `undefined`. -/
def stringifyFields : List (String × Js) → String
  | [] => ""
  | (k, v) :: fs =>
      if v.isUndefined then stringifyFields fs
      else
        let rest := stringifyFields fs
        let piece := "\"" ++ escapeString k ++ "\":" ++ Js.stringify v
        if rest = "" then piece else piece ++ "," ++ rest

end

/-- Skip JSON whitespace. -/
def skipWs : List Char → List Char
  | c :: cs => if c = ' ' || c = '\t' || c = '\n' || c = '\r' then skipWs cs else c :: cs
  | [] => []

/-- Parse the body of a JSON string literal (the opening quote already
consumed), accumulating characters in reverse. -/
def parseStrChars : List Char → List Char → Option (String × List Char)
  | [], _ => none
  | '"' :: rest, acc => some (String.mk acc.reverse, rest)
  | '\\' :: c :: rest, acc =>
      if c = '"' then parseStrChars rest ('"' :: acc)
      else if c = '\\' then parseStrChars rest ('\\' :: acc)
      else if c = '/' then parseStrChars rest ('/' :: acc)
      else if c = 'n' then parseStrChars rest ('\n' :: acc)
      else if c = 't' then parseStrChars rest ('\t' :: acc)
      else if c = 'r' then parseStrChars rest ('\r' :: acc)
      else none
  | c :: rest, acc => if c = '\\' then none else parseStrChars rest (c :: acc)

/-- Take a maximal run of decimal digits. -/
def takeDigits : List Char → List Char × List Char
  | c :: cs =>
      if c.isDigit then
        let p := takeDigits cs
        (c :: p.1, p.2)
      else ([], c :: cs)
  | [] => ([], [])

/-- Numeric value of a digit run. -/
def digitsToNat (ds : List Char) : Nat :=
  ds.foldl (fun acc c => acc * 10 + (c.toNat - '0'.toNat)) 0

mutual

/-- Fuel-indexed recursive-descent parser for one JSON value, modelling
`JSON.parse` on the integer/JSON fragment used by this adapter; returns
the parsed value and the remaining input. -/
def parseJsonV : Nat → List Char → Option (Js × List Char)
  | 0, _ => none
  | Nat.succ fuel, cs =>
      match skipWs cs with
      | 'n' :: 'u' :: 'l' :: 'l' :: rest => some (.null, rest)
      | 't' :: 'r' :: 'u' :: 'e' :: rest => some (.bool true, rest)
      | 'f' :: 'a' :: 'l' :: 's' :: 'e' :: rest => some (.bool false, rest)
      | '"' :: rest =>
          match parseStrChars rest [] with
          | some (s, rest2) => some (.str s, rest2)
          | none => none
      | '[' :: rest =>
          (match skipWs rest with
           | ']' :: rest2 => some (.arr [], rest2)
           | other => parseJsonElems fuel other [])
      | '\x7b' :: rest =>
          (match skipWs rest with
           | '\x7d' :: rest2 => some (.obj [], rest2)
           | other => parseJsonFields fuel other [])
      | '-' :: rest =>
          (match takeDigits rest with
           | ([], _) => none
           | (ds, rest2) => some (.num (-(digitsToNat ds : Int)), rest2))
      | c :: rest =>
          if c.isDigit then
            (match takeDigits (c :: rest) with
             | ([], _) => none
             | (ds, rest2) => some (.num (digitsToNat ds : Int), rest2))
          else none
      | [] => none

/-- Parse the elements of a non-empty JSON array (after `[`). -/
def parseJsonElems : Nat → List Char → List Js → Option (Js × List Char)
  | 0, _, _ => none
  | Nat.succ fuel, cs, acc =>
      match parseJsonV fuel cs with
      | none => none
      | some (v, rest) =>
          match skipWs rest with
          | ',' :: rest2 => parseJsonElems fuel rest2 (acc ++ [v])
          | ']' :: rest2 => some (.arr (acc ++ [v]), rest2)
          | _ => none

/-- Parse the fields of a non-empty JSON object (after the opening
brace). -/
def parseJsonFields : Nat → List Char → List (String × Js) → Option (Js × List Char)
  | 0, _, _ => none
  | Nat.succ fuel, cs, acc =>
      match skipWs cs with
      | '"' :: rest =>
          (match parseStrChars rest [] with
           | none => none
           | some (key, rest2) =>
               match skipWs rest2 with
               | ':' :: rest3 =>
                   (match parseJsonV fuel rest3 with
                    | none => none
                    | some (v, rest4) =>
                        match skipWs rest4 with
                        | ',' :: rest5 => parseJsonFields fuel rest5 (acc ++ [(key, v)])
                        | '\x7d' :: rest5 => some (.obj (acc ++ [(key, v)]), rest5)
                        | _ => none)
               | _ => none)
      | _ => none

end

/-- Model of the `JSON.parse` builtin: parse an entire string as one JSON
value; a parse failure throws (returned in the `error` branch, holding the
thrown `SyntaxError` value). -/
def jsonParse (s : String) : Except Js Js :=
  match parseJsonV (2 * s.length + 2) s.data with
  | some (v, rest) =>
      if (skipWs rest).isEmpty then .ok v
      else .error (.str "SyntaxError: Unexpected token in JSON")
  | none => .error (.str "SyntaxError: Unexpected token in JSON")

example : jsonParse "\x7b\"a\":1\x7d" = .ok (.obj [("a", .num 1)]) := rfl
example : jsonParse "\x7b\x7d" = .ok (.obj []) := rfl
example : jsonParse "[1, 2]" = .ok (.arr [.num 1, .num 2]) := rfl
example : jsonParse "nope" = .error (.str "SyntaxError: Unexpected token in JSON") := rfl
example : Js.stringify (.arr []) = "[]" := rfl
example : Js.stringify (.obj [("errors", .arr [.str "e"])]) = "\x7b\"errors\":[\"e\"]\x7d" := rfl

/-! ## The `graphqlHTTP` request handler (`expressApollo.ts` lines 45-137) -/

/-- The record passed to `runQuery` for one request item (`params`,
lines 99-109 of the source).  `formatError` holds the resolved
error-formatting function placed into the record on line 107. -/
structure RunQueryParams where
  schema : Js
  query : Js
  variables' : Js
  rootValue : Js
  operationName : Js
  logFunction : Js
  validationRules : Js
  formatError : Js → Js
  formatResponse : Js

/-- `ExpressApolloOptions`: the configuration record.  Optional function
fields are `Option`; optional plain fields hold `Js.undefined` when absent.
`formatParams` may throw, hence `Except`. -/
structure ExpressApolloOptions where
  schema : Js
  formatError : Option (Js → Js) := none
  rootValue : Js := .undefined
  context : Js := .undefined
  logFunction : Js := .undefined
  formatParams : Option (RunQueryParams → Except Js RunQueryParams) := none
  validationRules : Js := .undefined
  formatResponse : Js := .undefined

/-- An incoming framework request: HTTP method and the parsed body
(`none` when no body-parsing middleware populated `req.body`). -/
structure Request where
  method : String
  body : Option Js := none

/-- Truthiness of `req.body` (an absent body is falsy). -/
def Request.bodyTruthy (req : Request) : Bool :=
  match req.body with
  | some v => v.truthy
  | none => false

/-- The factory argument: a static configuration or a per-request resolver
function (`ExpressApolloOptions | ExpressApolloOptionsFunction`). -/
inductive OptionsValue where
  | value (o : ExpressApolloOptions)
  | func (f : Request → ExpressApolloOptions)

/-- Lines 56-61: resolve the configuration, calling the resolver with the
request when a function was supplied (`isOptionsFunction`). -/
def resolveOptions : OptionsValue → Request → ExpressApolloOptions
  | .value o, _ => o
  | .func f, req => f req

/-- External collaborators: the `runQuery` executor (which may reject,
hence `Except`) and the library default error formatter
`graphql.formatError`. -/
structure Env where
  runQuery : RunQueryParams → Except Js Js
  defaultFormatError : Js → Js

/-- Line 63: `optionsObject.formatError || graphql.formatError`. -/
def formatErrorFn (env : Env) (opts : ExpressApolloOptions) : Js → Js :=
  match opts.formatError with
  | some f => f
  | none => env.defaultFormatError

/-- Lines 90-113: field extraction, and the JSON-parse of a textual
`variables`, the assembly of the `runQuery` parameter record, without the
`formatParams` transform.  Any throw surfaces in the `error` branch. -/
def itemParamsBase (opts : ExpressApolloOptions) (fe : Js → Js) (requestParams : Js) :
    Except Js RunQueryParams := do
  let query ← requestParams.getE "query"
  let operationName ← requestParams.getE "operationName"
  let variables0 ← requestParams.getE "variables"
  let variables' ←
    match variables0 with
    | .str s => jsonParse s
    | v => pure v
  pure { schema := opts.schema
         query := query
         variables' := variables'
         rootValue := opts.rootValue
         operationName := operationName
         logFunction := opts.logFunction
         validationRules := opts.validationRules
         formatError := fe
         formatResponse := opts.formatResponse }

/-- Lines 90-113 including the optional `formatParams` transform
(lines 111-113): the final parameter record for one item. -/
def itemParams (opts : ExpressApolloOptions) (fe : Js → Js) (requestParams : Js) :
    Except Js RunQueryParams := do
  let params ← itemParamsBase opts fe requestParams
  match opts.formatParams with
  | some f => f params
  | none => pure params

/-- The body of the `try` block for one item (lines 89-119): build the
parameters, fail when the final `params.query` is falsy
(`Must provide query string.`), otherwise call the executor. -/
def processItemE (env : Env) (opts : ExpressApolloOptions) (fe : Js → Js)
    (requestParams : Js) : Except Js Js := do
  let params ← itemParams opts fe requestParams
  if params.query.truthy then env.runQuery params
  else .error (.str "Must provide query string.")

/-- One loop iteration (lines 88-123): the `try/catch` around item
processing; a thrown value `e` becomes the result
`\x7b errors: [formatErrorFn(e)] \x7d`. -/
def processItem (env : Env) (opts : ExpressApolloOptions) (fe : Js → Js)
    (requestParams : Js) : Js :=
  match processItemE env opts fe requestParams with
  | .ok r => r
  | .error e => .obj [("errors", .arr [fe e])]

/-- The response object after the handler ran: status (Express default
200), accumulated headers, and the body given to `res.send`. -/
structure Response where
  status : Nat := 200
  headers : List (String × String) := []
  body : String := ""

/-- The per-request handler body (lines 55-136).  The `error` branch is an
exception escaping the handler itself (only possible at line 130, reading
`.errors` off a nullish single result). -/
def handleRequest (env : Env) (optsArg : OptionsValue) (req : Request) :
    Except Js Response := do
  let optionsObject := resolveOptions optsArg req
  let fe := formatErrorFn env optionsObject
  if req.method ≠ "POST" then
    pure { status := 405
           headers := [("Allow", "POST")]
           body := "Apollo Server supports only POST requests." }
  else if ¬ req.bodyTruthy then
    pure { status := 500
           body := "POST body missing. Did you forget \"app.use(bodyParser.json())\"?" }
  else
    match req.body.getD .undefined with
    | .arr items =>
        let responses := items.map (processItem env optionsObject fe)
        pure { status := 200
               headers := [("Content-Type", "application/json")]
               body := Js.stringify (.arr responses) }
    | b =>
        let gqlResponse := processItem env optionsObject fe b
        let errs ← gqlResponse.getE "errors"
        let st := if errs.truthy && (gqlResponse.getProp "data").isUndefined then 400 else 200
        pure { status := st
               headers := [("Content-Type", "application/json")]
               body := Js.stringify gqlResponse }

/-- A value passed to the `graphqlHTTP` factory: either a nullish (falsy)
argument or an actual options value. -/
inductive FactoryArg where
  | nullish
  | given (o : OptionsValue)

/-- Lines 45-55: the factory.  `args` models the JavaScript `arguments`
list.  `!options` throws `Apollo Server requires options.`; more than one
argument throws; otherwise the per-request handler is returned. -/
def graphqlHTTP (args : List FactoryArg) :
    Except String (Env → Request → Except Js Response) :=
  match args.headD .nullish with
  | .nullish => .error "Apollo Server requires options."
  | .given o =>
      if args.length > 1 then
        .error ("Apollo Server expects exactly one argument, got " ++ toString (args.length + 1))
      else
        .ok (fun env req => handleRequest env o req)

/-! ## The `renderGraphiQL` explorer middleware (lines 154-172) -/

/-- `GraphiQLData`: the explorer configuration (`endpointURL` plus the
optional `query` / `variables` / `operationName` defaults; absent fields
hold `Js.undefined`). -/
structure GraphiQLData where
  endpointURL : String
  query : Js := .undefined
  variables' : Js := .undefined
  operationName : Js := .undefined

/-- A request to the explorer middleware: `req.query`, the parsed
query-string parameters (`none` models a falsy `req.query`; values are the
strings the query-string parser produces). -/
structure GraphiQLRequest where
  query : Option (List (String × String)) := none

/-- Look up one query-string parameter. -/
def qlookup (ps : List (String × String)) (k : String) : Option String :=
  (ps.find? (fun p => p.1 == k)).map (fun p => p.2)

/-- `q.field || defaultText`: the request-supplied string when present and
non-empty (JavaScript string truthiness), else the default text. -/
def strOr (a : Option String) (d : String) : String :=
  match a with
  | some s => if s = "" then d else s
  | none => d

/-- The record handed to the external `GraphiQL.renderGraphiQL` template
renderer (lines 163-168), after merging request values with configured
defaults. -/
structure ResolvedGraphiQL where
  endpointURL : String
  query : Js
  variables' : Js
  operationName : Js

/-- Lines 157-168: compute the values passed to the template renderer.
`q.query || ""`, `q.variables || "\x7b\x7d"`, `q.operationName || ""`,
then `query || options.query`, `JSON.parse(variables) || options.variables`,
`operationName || options.operationName`.  The JSON parse of the variables
text may throw; that exception escapes the middleware (the `error`
branch). -/
def renderGraphiQLResolve (options : GraphiQLData) (req : GraphiQLRequest) :
    Except Js ResolvedGraphiQL := do
  let q := req.query.getD []
  let query := strOr (qlookup q "query") ""
  let variables0 := strOr (qlookup q "variables") "\x7b\x7d"
  let operationName := strOr (qlookup q "operationName") ""
  let parsedVars ← jsonParse variables0
  pure { endpointURL := options.endpointURL
         query := jsOr (.str query) options.query
         variables' := jsOr parsedVars options.variables'
         operationName := jsOr (.str operationName) options.operationName }

/-- Lines 154-172: the explorer middleware.  `render` is the external
static HTML template renderer; the response carries `Content-Type:
text/html` and the rendered document. -/
def renderGraphiQL (render : ResolvedGraphiQL → String) (options : GraphiQLData)
    (req : GraphiQLRequest) : Except Js Response := do
  let resolved ← renderGraphiQLResolve options req
  pure { status := 200
         headers := [("Content-Type", "text/html")]
         body := render resolved }

/-! ## Concrete fixtures used by witnesses -/

/-- Identity error formatter used as a concrete `graphql.formatError`. -/
def idFormat : Js → Js := fun e => e

/-- A concrete environment: the executor echoes the variables it received
under `data`. -/
def env0 : Env :=
  { runQuery := fun p => .ok (.obj [("data", p.variables')])
    defaultFormatError := idFormat }

/-- A concrete environment whose executor returns a result carrying only
`errors`. -/
def envErr : Env :=
  { runQuery := fun _ => .ok (.obj [("errors", .arr [.str "boom"])])
    defaultFormatError := idFormat }

/-- A minimal concrete configuration. -/
def opts0 : ExpressApolloOptions := { schema := .str "schema" }

/-! ## Claims -/

/-- C7: for every request whose HTTP method is not POST, the handler
responds with status 405, header `Allow: POST` and the plain-text body
`Apollo Server supports only POST requests.`, and terminates without
invoking the executor (the response is the same for every environment and
request body). -/
theorem non_post_rejected_405 (env : Env) (optsArg : OptionsValue) (req : Request)
    (hm : req.method ≠ "POST") :
    handleRequest env optsArg req =
      .ok { status := 405
            headers := [("Allow", "POST")]
            body := "Apollo Server supports only POST requests." } := by
  simp [handleRequest, hm]
  rfl

/-- Witness for C7 at a concrete GET request. -/
theorem non_post_rejected_405_witness :
    handleRequest env0 (.value opts0) { method := "GET", body := some (.obj []) } =
      .ok { status := 405
            headers := [("Allow", "POST")]
            body := "Apollo Server supports only POST requests." } :=
  non_post_rejected_405 env0 (.value opts0)
    { method := "GET", body := some (.obj []) } (by decide)

/-- C8: for every POST request with no parsed body on the request object,
the handler responds with status 500 and the body-parser reminder text,
and terminates without invoking the executor. -/
theorem missing_body_rejected_500 (env : Env) (optsArg : OptionsValue) (req : Request)
    (hm : req.method = "POST") (hb : req.body = none) :
    handleRequest env optsArg req =
      .ok { status := 500
            headers := []
            body := "POST body missing. Did you forget \"app.use(bodyParser.json())\"?" } := by
  simp [handleRequest, hm, Request.bodyTruthy, hb]
  rfl

/-- Witness for C8 at a concrete body-less POST request. -/
theorem missing_body_rejected_500_witness :
    handleRequest env0 (.value opts0) { method := "POST", body := none } =
      .ok { status := 500
            headers := []
            body := "POST body missing. Did you forget \"app.use(bodyParser.json())\"?" } :=
  missing_body_rejected_500 env0 (.value opts0) { method := "POST", body := none } rfl rfl

/-- C10: a POST request whose parsed body is the empty JSON array yields
`Content-Type: application/json`, body `[]` and the default status 200,
for every environment and configuration (so the executor is never
consulted); the empty batch is not an error. -/
theorem empty_batch_ok (env : Env) (optsArg : OptionsValue) :
    handleRequest env optsArg { method := "POST", body := some (.arr []) } =
      .ok { status := 200
            headers := [("Content-Type", "application/json")]
            body := "[]" } := rfl

/-- C9: the factory raises synchronously, before returning a handler, when
no argument is supplied and whenever more than one argument is supplied. -/
theorem factory_validates_arguments :
    graphqlHTTP [] = .error "Apollo Server requires options." ∧
    ∀ args : List FactoryArg, 1 < args.length →
      ∃ msg, graphqlHTTP args = .error msg := by
  refine ⟨rfl, ?_⟩
  intro args h
  cases args with
  | nil => simp at h
  | cons a rest =>
    cases a with
    | nullish => exact ⟨"Apollo Server requires options.", rfl⟩
    | given o =>
      refine ⟨"Apollo Server expects exactly one argument, got " ++
        toString ((FactoryArg.given o :: rest).length + 1), ?_⟩
      simp only [graphqlHTTP, List.headD]
      rw [if_pos h]

/-- Witness for C9: two arguments at a concrete configuration. -/
theorem factory_validates_arguments_witness :
    graphqlHTTP [] = .error "Apollo Server requires options." ∧
    ∃ msg, graphqlHTTP [.given (.value opts0), .given (.value opts0)] = .error msg :=
  ⟨factory_validates_arguments.1,
   factory_validates_arguments.2 [.given (.value opts0), .given (.value opts0)] (by decide)⟩

/-- For a POST request with an array body, the handler maps `processItem`
over the items and sends the serialized array with status 200. -/
theorem handleRequest_batch (env : Env) (optsArg : OptionsValue)
    (req : Request) (items : List Js)
    (hm : req.method = "POST") (hb : req.body = some (.arr items)) :
    handleRequest env optsArg req =
      .ok { status := 200
            headers := [("Content-Type", "application/json")]
            body := Js.stringify (.arr (items.map (processItem env (resolveOptions optsArg req)
                      (formatErrorFn env (resolveOptions optsArg req))))) } := by
  simp [handleRequest, hm, hb, Request.bodyTruthy, Js.truthy]
  rfl

/-- C1: for every POST request whose parsed body is an array of N items,
the response body is the JSON serialization of exactly the list of
per-item results, one per input item in input order (so N results for N
items), and the status is the framework default 200 regardless of which
items fail. -/
theorem batch_preserves_count_and_order (env : Env) (optsArg : OptionsValue)
    (req : Request) (items : List Js)
    (hm : req.method = "POST") (hb : req.body = some (.arr items)) :
    (items.map (processItem env (resolveOptions optsArg req)
        (formatErrorFn env (resolveOptions optsArg req)))).length = items.length ∧
    handleRequest env optsArg req =
      .ok { status := 200
            headers := [("Content-Type", "application/json")]
            body := Js.stringify (.arr (items.map (processItem env (resolveOptions optsArg req)
                      (formatErrorFn env (resolveOptions optsArg req))))) } :=
  ⟨by simp, handleRequest_batch env optsArg req items hm hb⟩

/-- Witness for C1: a two-item batch where the second item fails (it has
no query). -/
theorem batch_preserves_count_and_order_witness :
    (([.obj [("query", .str "q")], .obj []] : List Js).map
        (processItem env0 opts0 (formatErrorFn env0 opts0))).length =
      ([.obj [("query", .str "q")], .obj []] : List Js).length ∧
    handleRequest env0 (.value opts0)
        { method := "POST", body := some (.arr [.obj [("query", .str "q")], .obj []]) } =
      .ok { status := 200
            headers := [("Content-Type", "application/json")]
            body := Js.stringify (.arr (([.obj [("query", .str "q")], .obj []] : List Js).map
                      (processItem env0 opts0 (formatErrorFn env0 opts0)))) } :=
  batch_preserves_count_and_order env0 (.value opts0)
    { method := "POST", body := some (.arr [.obj [("query", .str "q")], .obj []]) }
    [.obj [("query", .str "q")], .obj []] rfl rfl

/-- C2: in a batch, an item whose processing throws `e` (at any stage:
field extraction, variables JSON parse, parameter assembly or transform,
query-presence check, or the executor call) contributes exactly the
failure result `\x7b errors: [formatErrorFn e] \x7d` at its own position,
where `formatErrorFn` is the configured `formatError` if present and the
library default otherwise; every other position is that sibling's own
result, and the batch response is still sent. -/
theorem item_failure_recovered (env : Env) (optsArg : OptionsValue)
    (req : Request) (items : List Js) (i : Nat) (e : Js)
    (hm : req.method = "POST") (hb : req.body = some (.arr items))
    (hi : i < items.length)
    (he : processItemE env (resolveOptions optsArg req)
            (formatErrorFn env (resolveOptions optsArg req)) (items.get ⟨i, hi⟩) = .error e) :
    handleRequest env optsArg req =
      .ok { status := 200
            headers := [("Content-Type", "application/json")]
            body := Js.stringify (.arr (items.map (processItem env (resolveOptions optsArg req)
                      (formatErrorFn env (resolveOptions optsArg req))))) } ∧
    (items.map (processItem env (resolveOptions optsArg req)
        (formatErrorFn env (resolveOptions optsArg req))))[i]? =
      some (.obj [("errors",
        .arr [formatErrorFn env (resolveOptions optsArg req) e])]) := by
  refine ⟨handleRequest_batch env optsArg req items hm hb, ?_⟩
  rw [List.getElem?_map]
  rw [List.getElem?_eq_getElem hi]
  simp only [Option.map_some']
  have he' : processItemE env (resolveOptions optsArg req)
      (formatErrorFn env (resolveOptions optsArg req)) items[i] = .error e := he
  simp [processItem, he']

/-- Witness for C2: a two-item batch whose second item has no query, so
its processing throws `Must provide query string.`. -/
theorem item_failure_recovered_witness :
    handleRequest env0 (.value opts0)
        { method := "POST", body := some (.arr [.obj [("query", .str "q")], .obj []]) } =
      .ok { status := 200
            headers := [("Content-Type", "application/json")]
            body := Js.stringify (.arr (([.obj [("query", .str "q")], .obj []] : List Js).map
                      (processItem env0 opts0 (formatErrorFn env0 opts0)))) } ∧
    (([.obj [("query", .str "q")], .obj []] : List Js).map
        (processItem env0 opts0 (formatErrorFn env0 opts0)))[1]? =
      some (.obj [("errors",
        .arr [formatErrorFn env0 opts0 (.str "Must provide query string.")])]) :=
  item_failure_recovered env0 (.value opts0)
    { method := "POST", body := some (.arr [.obj [("query", .str "q")], .obj []]) }
    [.obj [("query", .str "q")], .obj []] 1 (.str "Must provide query string.")
    rfl rfl (by decide) rfl

/-- `isUndefined` detects exactly the value `undefined`. -/
theorem Js.isUndef_iff (v : Js) : v.isUndefined = true ↔ v = .undefined := by
  cases v <;> simp [Js.isUndefined]

/-- Property access on a value that is neither `null` nor `undefined`
never throws. -/
theorem Js.getE_of_ne (o : Js) (name : String) (h1 : o ≠ Js.null) (h2 : o ≠ Js.undefined) :
    o.getE name = .ok (o.getProp name) := by
  cases o
  case null => exact absurd rfl h1
  case undefined => exact absurd rfl h2
  all_goals rfl

/-- C3: for a non-batch POST request, the response body is the serialized
single result and the status is 400 exactly when the result carries an
`errors` field (per the executor contract, an array when present) and no
`data` field; otherwise it stays 200. -/
theorem nonbatch_status_400_iff (env : Env) (optsArg : OptionsValue) (req : Request)
    (b r : Js)
    (hm : req.method = "POST") (hb : req.body = some b)
    (hna : ∀ xs, b ≠ Js.arr xs) (ht : b.truthy = true)
    (hr : processItem env (resolveOptions optsArg req)
            (formatErrorFn env (resolveOptions optsArg req)) b = r)
    (hnn : r ≠ Js.null) (hnu : r ≠ Js.undefined)
    (hwt : r.getProp "errors" = Js.undefined ∨ ∃ xs, r.getProp "errors" = Js.arr xs) :
    ∃ st, handleRequest env optsArg req =
        .ok { status := st
              headers := [("Content-Type", "application/json")]
              body := Js.stringify r } ∧
      (st = 400 ↔ (∃ xs, r.getProp "errors" = Js.arr xs) ∧ r.getProp "data" = Js.undefined) ∧
      (st = 400 ∨ st = 200) := by
  refine ⟨if (r.getProp "errors").truthy && (r.getProp "data").isUndefined then 400 else 200,
    ?_, ?_, ?_⟩
  · simp only [handleRequest, hm, hb, Request.bodyTruthy, ht]
    rw [if_neg (by decide), if_neg (by decide), Option.getD_some]
    split
    all_goals first
      | exact absurd rfl (hna _)
      | (rw [hr, Js.getE_of_ne r "errors" hnn hnu]; rfl)
  · rcases hwt with h | ⟨xs, h⟩
    · simp [h, Js.truthy]
    · simp [h, Js.truthy, Js.isUndef_iff]
  · cases hc : (r.getProp "errors").truthy && (r.getProp "data").isUndefined <;> simp [hc]

/-- Witness for C3: an executor result carrying `errors` and no `data`
produces status 400. -/
theorem nonbatch_status_400_iff_witness :
    ∃ st, handleRequest envErr (.value opts0)
        { method := "POST", body := some (.obj [("query", .str "q")]) } =
        .ok { status := st
              headers := [("Content-Type", "application/json")]
              body := Js.stringify (.obj [("errors", .arr [.str "boom"])]) } ∧
      (st = 400 ↔
        (∃ xs, (Js.obj [("errors", .arr [.str "boom"])]).getProp "errors" = Js.arr xs) ∧
        (Js.obj [("errors", .arr [.str "boom"])]).getProp "data" = Js.undefined) ∧
      (st = 400 ∨ st = 200) :=
  nonbatch_status_400_iff envErr (.value opts0)
    { method := "POST", body := some (.obj [("query", .str "q")]) }
    (.obj [("query", .str "q")]) (.obj [("errors", .arr [.str "boom"])])
    rfl rfl (fun _ h => Js.noConfusion h) rfl rfl
    (fun h => Js.noConfusion h) (fun h => Js.noConfusion h)
    (Or.inr ⟨[.str "boom"], rfl⟩)

/-- `Except` bind on a success. -/
theorem exceptBind_ok {α β ε : Type} (a : α) (f : α → Except ε β) :
    (Except.ok a : Except ε α) >>= f = f a := rfl

/-- `Except` bind on a failure. -/
theorem exceptBind_err {α β ε : Type} (e : ε) (f : α → Except ε β) :
    (Except.error e : Except ε α) >>= f = (Except.error e : Except ε β) := rfl

/-- `pure` for `Except` is `ok`. -/
theorem exceptPure {α ε : Type} (a : α) : (pure a : Except ε α) = Except.ok a := rfl

/-- C5: when an item's `variables` field is a string, it is JSON-parsed
before execution and the executor parameters carry the parsed structured
value; a parse failure is not caught at the parse step but becomes that
item's error result.  The concrete round trip: the JSON text
`\x7b"a":1\x7d` parses to the object `\x7b a: 1 \x7d`. -/
theorem variables_string_parsed (opts : ExpressApolloOptions) (fe : Js → Js)
    (item : Js) (s : String)
    (hv : item.getE "variables" = .ok (.str s)) (hf : opts.formatParams = none) :
    (∀ v, jsonParse s = .ok v →
      itemParams opts fe item = .ok
        { schema := opts.schema
          query := item.getProp "query"
          variables' := v
          rootValue := opts.rootValue
          operationName := item.getProp "operationName"
          logFunction := opts.logFunction
          validationRules := opts.validationRules
          formatError := fe
          formatResponse := opts.formatResponse }) ∧
    (∀ env e, jsonParse s = .error e →
      processItem env opts fe item = .obj [("errors", .arr [fe e])]) ∧
    jsonParse "\x7b\"a\":1\x7d" = .ok (.obj [("a", .num 1)]) := by
  have h1 : item ≠ Js.null := by
    rintro rfl
    simp [Js.getE] at hv
  have h2 : item ≠ Js.undefined := by
    rintro rfl
    simp [Js.getE] at hv
  have hvar : item.getProp "variables" = .str s :=
    Except.ok.inj ((Js.getE_of_ne item "variables" h1 h2).symm.trans hv)
  refine ⟨?_, ?_, rfl⟩
  · intro v hok
    simp only [itemParams, itemParamsBase, Js.getE_of_ne item _ h1 h2, exceptBind_ok,
      hvar, hok, hf, exceptPure]
  · intro env e herr
    simp only [processItem, processItemE, itemParams, itemParamsBase,
      Js.getE_of_ne item _ h1 h2, exceptBind_ok, hvar, herr, exceptBind_err]

/-- Witness for C5 at a concrete item with `variables` holding the JSON
text `\x7b"a":1\x7d`. -/
theorem variables_string_parsed_witness :
    (∀ v, jsonParse "\x7b\"a\":1\x7d" = .ok v →
      itemParams opts0 idFormat
          (.obj [("query", .str "q"), ("variables", .str "\x7b\"a\":1\x7d")]) = .ok
        { schema := opts0.schema
          query := (Js.obj [("query", .str "q"), ("variables", .str "\x7b\"a\":1\x7d")]).getProp "query"
          variables' := v
          rootValue := opts0.rootValue
          operationName := (Js.obj [("query", .str "q"),
            ("variables", .str "\x7b\"a\":1\x7d")]).getProp "operationName"
          logFunction := opts0.logFunction
          validationRules := opts0.validationRules
          formatError := idFormat
          formatResponse := opts0.formatResponse }) ∧
    (∀ env e, jsonParse "\x7b\"a\":1\x7d" = .error e →
      processItem env opts0 idFormat
          (.obj [("query", .str "q"), ("variables", .str "\x7b\"a\":1\x7d")]) =
        .obj [("errors", .arr [idFormat e])]) ∧
    jsonParse "\x7b\"a\":1\x7d" = .ok (.obj [("a", .num 1)]) :=
  variables_string_parsed opts0 idFormat
    (.obj [("query", .str "q"), ("variables", .str "\x7b\"a\":1\x7d")])
    "\x7b\"a\":1\x7d" rfl rfl

/-- C6: the `Must provide query string.` check runs on the final
parameters, after the configured `formatParams` transform: when the
transformed parameters have a falsy query the item yields the error
result without the executor being consulted (the result is the same for
every environment), and when the transformed query is truthy the executor
is invoked with exactly the transformed parameters. -/
theorem query_checked_after_transform (env : Env) (opts : ExpressApolloOptions)
    (fe : Js → Js) (item : Js) (f : RunQueryParams → Except Js RunQueryParams)
    (p p' : RunQueryParams)
    (hf : opts.formatParams = some f)
    (hbase : itemParamsBase opts fe item = .ok p)
    (htr : f p = .ok p') :
    (p'.query.truthy = false →
      processItem env opts fe item =
        .obj [("errors", .arr [fe (.str "Must provide query string.")])]) ∧
    (p'.query.truthy = true → processItemE env opts fe item = env.runQuery p') := by
  have hip : itemParams opts fe item = .ok p' := by
    simp only [itemParams, hbase, exceptBind_ok, hf, htr]
  constructor
  · intro hq
    simp only [processItem, processItemE, hip, exceptBind_ok, hq, Bool.false_eq_true,
      if_false]
  · intro hq
    simp only [processItemE, hip, exceptBind_ok, hq, if_true]

/-- A configuration whose `formatParams` transform replaces the query with
the empty string. -/
def tfOpts : ExpressApolloOptions :=
  { schema := .str "schema"
    formatParams := some (fun p => .ok { p with query := .str "" }) }

/-- The parameter record assembled for the item
`\x7b query: "q" \x7d` under `tfOpts` before the transform. -/
def pBase : RunQueryParams :=
  { schema := .str "schema"
    query := .str "q"
    variables' := .undefined
    rootValue := .undefined
    operationName := .undefined
    logFunction := .undefined
    validationRules := .undefined
    formatError := idFormat
    formatResponse := .undefined }

/-- `pBase` after the `tfOpts` transform: the query has been emptied. -/
def pFinal : RunQueryParams := { pBase with query := .str "" }

/-- Witness for C6: the transform drops the query, so the item fails even
though the original item had one. -/
theorem query_checked_after_transform_witness :
    (pFinal.query.truthy = false →
      processItem env0 tfOpts idFormat (.obj [("query", .str "q")]) =
        .obj [("errors", .arr [idFormat (.str "Must provide query string.")])]) ∧
    (pFinal.query.truthy = true →
      processItemE env0 tfOpts idFormat (.obj [("query", .str "q")]) =
        env0.runQuery pFinal) :=
  query_checked_after_transform env0 tfOpts idFormat (.obj [("query", .str "q")])
    (fun p => .ok { p with query := .str "" }) pBase pFinal rfl rfl rfl

/-- C4 counterexample: with a configured variables default
`\x7b x: 5 \x7d`, a request with no query parameters does NOT render the
configured variables default — the rendered variables value is the empty
object coming from parsing the request-side fallback text `\x7b\x7d`,
which is truthy and therefore shadows the configured default (while the
query and operationName defaults are used). -/
theorem graphiql_defaults_counterexample :
    renderGraphiQLResolve
        { endpointURL := "/graphql"
          query := .str "dq"
          variables' := .obj [("x", .num 5)]
          operationName := .str "op" }
        { query := some [] } =
      .ok { endpointURL := "/graphql"
            query := .str "dq"
            variables' := .obj []
            operationName := .str "op" } ∧
    (Js.obj [] : Js) ≠ .obj [("x", .num 5)] :=
  ⟨rfl, by simp⟩

/-- Merging a request-side textual field with a configured default: the
request value wins when present and non-empty, the default is used when
the parameter is absent or empty. -/
theorem jsOr_strOr (o : Option String) (d : Js) :
    jsOr (.str (strOr o "")) d =
      match o with
      | some s => if s = "" then d else .str s
      | none => d := by
  cases o with
  | none => simp [strOr, jsOr, Js.truthy]
  | some s =>
    by_cases h : s = "" <;> simp [strOr, jsOr, Js.truthy, h]

/-- C4 amended: for every configuration and every list of request
query-string parameters, `query` and `operationName` take the
request-supplied value when present and non-empty and fall back to the
configured default when the parameter is absent or empty; the `variables`
text (the request value when non-empty, else the literal text `\x7b\x7d`)
is JSON-parsed, and the parsed value `v` is used whenever it is truthy —
the configured variables default is used only when `v` is falsy.  In
particular, a request with no parameters renders the configured query and
operationName defaults but the empty object (truthy) for variables, never
the configured variables default. -/
theorem graphiql_merge_amended (opts : GraphiQLData)
    (ps : List (String × String)) (v : Js)
    (hv : jsonParse (strOr (qlookup ps "variables") "\x7b\x7d") = .ok v) :
    renderGraphiQLResolve opts { query := some ps } =
      .ok { endpointURL := opts.endpointURL
            query :=
              match qlookup ps "query" with
              | some s => if s = "" then opts.query else .str s
              | none => opts.query
            variables' := if v.truthy then v else opts.variables'
            operationName :=
              match qlookup ps "operationName" with
              | some s => if s = "" then opts.operationName else .str s
              | none => opts.operationName } := by
  simp only [renderGraphiQLResolve, Option.getD_some, hv, exceptBind_ok, exceptPure,
    jsOr_strOr]
  simp only [jsOr]

/-- A concrete explorer configuration with all three defaults set. -/
def gOpts : GraphiQLData :=
  { endpointURL := "/graphql"
    query := .str "dq"
    variables' := .obj [("x", .num 5)]
    operationName := .str "op" }

/-- Witness for the amended C4: a request whose variables text parses to
the falsy value `null` (so the configured variables default is used) and
whose `operationName` parameter is the empty string (so the configured
operationName default is used). -/
theorem graphiql_merge_amended_witness :
    renderGraphiQLResolve gOpts
        { query := some [("variables", "null"), ("operationName", "")] } =
      .ok { endpointURL := gOpts.endpointURL
            query :=
              match qlookup [("variables", "null"), ("operationName", "")] "query" with
              | some s => if s = "" then gOpts.query else .str s
              | none => gOpts.query
            variables' := if (Js.null).truthy then Js.null else gOpts.variables'
            operationName :=
              match qlookup [("variables", "null"), ("operationName", "")] "operationName" with
              | some s => if s = "" then gOpts.operationName else .str s
              | none => gOpts.operationName } :=
  graphiql_merge_amended gOpts [("variables", "null"), ("operationName", "")] Js.null rfl
